import Mathlib

/-!
Verification of the steam-shortcuts codec (record model, byte writer,
byte decoder, app-id derivation) against its natural-language
specification.

Rust strings (`&str` / `String`) are modelled as lists of byte values
(`List Nat`, each entry below 256): a Rust `str` is exactly a byte
sequence carrying a UTF-8 validity invariant, and Rust string equality
is byte equality.  `u32` values are modelled as `Nat` with explicit
little-endian byte (de)composition where the code touches bytes.
-/

set_option maxHeartbeats 2000000

namespace SteamShortcuts

/-- Bytes of an ASCII string literal (all literals in this development are
ASCII, where UTF-8 bytes coincide with code points). -/
def strBytes (s : String) : List Nat := s.data.map Char.toNat

/-! ## Record model (src/shortcut.rs)

`Shortcut` is the borrowing record (fields are slices of the decode
buffer) and `ShortcutOwned` the owning twin; under the byte-list model
both hold byte lists.  The source parser's record constructor does not
set `dev_kit_overrite_app_id` (no field line for it is read); the
embedding takes that missing component as 0. -/

structure Shortcut where
  order : Nat
  app_id : Nat
  app_name : List Nat
  exe : List Nat
  start_dir : List Nat
  icon : List Nat
  shortcut_path : List Nat
  launch_options : List Nat
  is_hidden : Bool
  allow_desktop_config : Bool
  allow_overlay : Bool
  open_vr : Nat
  dev_kit : Nat
  dev_kit_game_id : List Nat
  dev_kit_overrite_app_id : Nat
  last_play_time : Nat
  tags : List (List Nat)
deriving DecidableEq, Repr

structure ShortcutOwned where
  order : Nat
  app_id : Nat
  app_name : List Nat
  exe : List Nat
  start_dir : List Nat
  icon : List Nat
  shortcut_path : List Nat
  launch_options : List Nat
  is_hidden : Bool
  allow_desktop_config : Bool
  allow_overlay : Bool
  open_vr : Nat
  dev_kit : Nat
  dev_kit_game_id : List Nat
  dev_kit_overrite_app_id : Nat
  last_play_time : Nat
  tags : List (List Nat)
deriving DecidableEq, Repr

/-- `ShortcutOwned::borrow` (src/shortcut.rs lines 92-114): field-wise view;
`&String -> &str` is the identity on the underlying bytes, and the tag
vector is rebuilt element-wise (`iter().map(|x| x.as_str()).collect()`). -/
def ShortcutOwned.borrow (s : ShortcutOwned) : Shortcut :=
  { order := s.order
    app_id := s.app_id
    app_name := s.app_name
    exe := s.exe
    start_dir := s.start_dir
    icon := s.icon
    shortcut_path := s.shortcut_path
    launch_options := s.launch_options
    is_hidden := s.is_hidden
    allow_desktop_config := s.allow_desktop_config
    allow_overlay := s.allow_overlay
    open_vr := s.open_vr
    dev_kit := s.dev_kit
    dev_kit_game_id := s.dev_kit_game_id
    dev_kit_overrite_app_id := s.dev_kit_overrite_app_id
    last_play_time := s.last_play_time
    tags := s.tags.map (fun x => x) }

/-- `Shortcut::to_owned` (src/shortcut.rs lines 168-189): field-wise copy;
`to_string`/`to_owned` copy the underlying bytes unchanged. -/
def Shortcut.to_owned (s : Shortcut) : ShortcutOwned :=
  { order := s.order
    app_id := s.app_id
    app_name := s.app_name
    exe := s.exe
    start_dir := s.start_dir
    icon := s.icon
    shortcut_path := s.shortcut_path
    launch_options := s.launch_options
    is_hidden := s.is_hidden
    allow_desktop_config := s.allow_desktop_config
    allow_overlay := s.allow_overlay
    open_vr := s.open_vr
    dev_kit := s.dev_kit
    dev_kit_game_id := s.dev_kit_game_id
    dev_kit_overrite_app_id := s.dev_kit_overrite_app_id
    last_play_time := s.last_play_time
    tags := s.tags.map (fun s => s) }

/-! ## App-id derivation (src/app_id_generator.rs)

The hashing primitive is the `crc32fast` dependency: standard CRC-32
(ISO-HDLC): reflected polynomial 0xEDB88320, initial value 0xFFFFFFFF,
final xor 0xFFFFFFFF. -/

/-- One bit-round of the reflected CRC-32 computation. -/
def crc32Round (c : Nat) : Nat :=
  if c % 2 = 1 then Nat.xor (c / 2) 0xEDB88320 else c / 2

/-- Absorb one input byte into the running CRC value. -/
def crc32Update (crc b : Nat) : Nat :=
  crc32Round (crc32Round (crc32Round (crc32Round
    (crc32Round (crc32Round (crc32Round (crc32Round (Nat.xor crc b))))))))

/-- CRC-32 (ISO-HDLC) of a byte sequence, as computed by `crc32fast`. -/
def crc32 (bytes : List Nat) : Nat :=
  Nat.xor (bytes.foldl crc32Update 0xFFFFFFFF) 0xFFFFFFFF

/-- `calculate_app_id` (src/app_id_generator.rs lines 15-21):
CRC-32 of `exe` directly followed by `app_name`, with the top bit
(0x80000000) forced on. -/
def calculate_app_id (exe app_name : List Nat) : Nat :=
  crc32 (exe ++ app_name) ||| 0x80000000

/-- `calculate_app_id_for_shortcut` (src/app_id_generator.rs lines 8-10). -/
def calculate_app_id_for_shortcut (s : Shortcut) : Nat :=
  calculate_app_id s.exe s.app_name

/-! ## Writer (src/shortcuts_writer.rs) -/

/-- ASCII decimal digits of a number (`format!("{}", n)`). -/
def decDigits (n : Nat) : List Nat := strBytes (Nat.repr n)

/-- Little-endian bytes of a 32-bit value (`u32::to_le_bytes`). -/
def toLeBytes4 (v : Nat) : List Nat :=
  [v % 256, v / 256 % 256, v / 65536 % 256, v / 16777216 % 256]

/-- `stx_to_bytes` (writer lines 150-161): STX, key, NUL, then the four
little-endian value bytes (long numeric form, no terminator). -/
def stx_to_bytes (name : List Nat) (input : Nat) : List Nat :=
  2 :: (name ++ [0] ++ toLeBytes4 input)

/-- `soh_to_bytes` (writer lines 120-132): SOH, key, NUL, value bytes, NUL. -/
def soh_to_bytes (name input : List Nat) : List Nat :=
  1 :: (name ++ [0] ++ input ++ [0])

/-- `stx_single_to_bytes` (writer lines 134-148): STX, key, NUL, SOH,
NUL, NUL, then the boolean as a single byte (packed short form). -/
def stx_single_to_bytes (name : List Nat) (input : Bool) : List Nat :=
  2 :: (name ++ [0, 1, 0, 0, if input then 1 else 0])

/-- `tag_to_bytes` (writer lines 105-118): SOH, decimal index digits,
NUL, tag text, NUL. -/
def tag_to_bytes (index : Nat) (tg : List Nat) : List Nat :=
  1 :: (decDigits index ++ [0] ++ tg ++ [0])

/-- `tags_to_bytes` (writer lines 97-103): each tag rendered with its
position in the list as its index. -/
def tags_to_bytes (input : List (List Nat)) : List Nat :=
  (input.enum.map (fun p => tag_to_bytes p.1 p.2)).flatten

/-- The field lines and tags block of one record (writer lines 59-93);
this part of `shortcut_to_bytes` does not depend on the `order`
argument nor on the record's own `order` field. -/
def shortcut_field_bytes (s : Shortcut) : List Nat :=
  stx_to_bytes (strBytes ("appid")) s.app_id
  ++ soh_to_bytes (strBytes ("AppName")) s.app_name
  ++ soh_to_bytes (strBytes ("Exe")) s.exe
  ++ soh_to_bytes (strBytes ("StartDir")) s.start_dir
  ++ soh_to_bytes (strBytes ("icon")) s.icon
  ++ soh_to_bytes (strBytes ("ShortcutPath")) s.shortcut_path
  ++ soh_to_bytes (strBytes ("LaunchOptions")) s.launch_options
  ++ stx_to_bytes (strBytes ("IsHidden")) (if s.is_hidden then 1 else 0)
  ++ stx_single_to_bytes (strBytes ("AllowDesktopConfig")) s.allow_desktop_config
  ++ stx_single_to_bytes (strBytes ("AllowOverlay")) s.allow_overlay
  ++ stx_to_bytes (strBytes ("openvr")) s.open_vr
  ++ stx_to_bytes (strBytes ("Devkit")) s.dev_kit
  ++ soh_to_bytes (strBytes ("DevkitGameID")) s.dev_kit_game_id
  ++ stx_to_bytes (strBytes ("DevkitOverrideAppID")) s.dev_kit_overrite_app_id
  ++ stx_to_bytes (strBytes ("LastPlayTime")) s.last_play_time
  ++ [0] ++ strBytes ("tags") ++ [0]
  ++ tags_to_bytes s.tags
  ++ [8, 8]

/-- `shortcut_to_bytes` (writer lines 46-95): NUL, decimal digits of the
`order` argument (the record's position, not its `order` field), NUL,
then the field lines, tags block and the two closing BACKSPACE bytes. -/
def shortcut_to_bytes (order : Nat) (s : Shortcut) : List Nat :=
  [0] ++ decDigits order ++ [0] ++ shortcut_field_bytes s

/-- `shortcuts_to_bytes` (writer lines 22-44): NUL "shortcuts" NUL
header, each record's block indexed by its position, then two trailing
BACKSPACE bytes. -/
def shortcuts_to_bytes (shortcut : List Shortcut) : List Nat :=
  [0] ++ strBytes ("shortcuts") ++ [0]
  ++ (shortcut.enum.map (fun p => shortcut_to_bytes p.1 p.2)).flatten
  ++ [8, 8]

/-! ## Decoder (src/shortcuts_parser.rs)

The nom combinators are embedded over `List Nat` inputs.  A parser
outcome is success with remaining input, a recoverable nom error
(`alt` falls through it, `many0` stops on it), or a Rust panic
(`unwrap()` on a failing conversion), which propagates through every
combinator. -/

inductive PResult (α : Type) : Type where
  | ok : List Nat → α → PResult α
  | err : PResult α
  | panicked : PResult α
deriving DecidableEq, Repr

/-- Sequencing of parsers (the `?` operator on `nom::IResult`, with a
panic propagating unconditionally). -/
def PResult.bind {α β : Type} : PResult α → (List Nat → α → PResult β) → PResult β
  | .ok rest a, f => f rest a
  | .err, _ => .err
  | .panicked, _ => .panicked

/-- `nom::bytes::complete::tag`: match the literal bytes `t` at the head
of the input (also models `nom::character::complete::char` at a
one-byte tag). -/
def tagB (t i : List Nat) : PResult Unit :=
  if t.isPrefixOf i then .ok (i.drop t.length) () else .err

/-- `nom::bytes::complete::take(n)`: take exactly `n` bytes. -/
def takeN (n : Nat) (i : List Nat) : PResult (List Nat) :=
  if n ≤ i.length then .ok (i.drop n) (i.take n) else .err

/-- `nom::bytes::complete::take_till(|c| c == v)`: consume bytes up to
(not including) the first occurrence of `v`; never fails. -/
def takeTillByte (v : Nat) (i : List Nat) : PResult (List Nat) :=
  .ok (i.dropWhile (fun b => b != v)) (i.takeWhile (fun b => b != v))

/-- `nom::branch::alt` over two alternatives: the second runs only when
the first returns a recoverable error. -/
def altP {α : Type} (p q : List Nat → PResult α) (i : List Nat) : PResult α :=
  match p i with
  | .err => q i
  | r => r

/-- `nom::multi::many0`, with explicit structural fuel: repeat `p` until
it errs, refusing success without consumption (nom's infinite-loop
guard). -/
def many0Go {α : Type} (p : List Nat → PResult α) : Nat → List Nat → PResult (List α)
  | 0, _ => .err
  | fuel + 1, i =>
    match p i with
    | .err => .ok i []
    | .panicked => .panicked
    | .ok rest a =>
      if rest.length < i.length then
        match many0Go p fuel rest with
        | .ok r l => .ok r (a :: l)
        | .err => .err
        | .panicked => .panicked
      else .err

def many0 {α : Type} (p : List Nat → PResult α) (i : List Nat) : PResult (List α) :=
  many0Go p (i.length + 1) i

/-- UTF-8 validity of a byte sequence, as checked by
`std::str::from_utf8` (strict UTF-8: surrogates and overlong forms
rejected).  The first three arguments are the DFA state: remaining
continuation bytes and the admissible range of the next byte. -/
def utf8Go : Nat → Nat → Nat → List Nat → Bool
  | 0, _, _, [] => true
  | 0, _, _, b :: rest =>
    if b ≤ 0x7F then utf8Go 0 0 0 rest
    else if 0xC2 ≤ b && b ≤ 0xDF then utf8Go 1 0x80 0xBF rest
    else if b = 0xE0 then utf8Go 2 0xA0 0xBF rest
    else if (0xE1 ≤ b && b ≤ 0xEC) || b = 0xEE || b = 0xEF then utf8Go 2 0x80 0xBF rest
    else if b = 0xED then utf8Go 2 0x80 0x9F rest
    else if b = 0xF0 then utf8Go 3 0x90 0xBF rest
    else if 0xF1 ≤ b && b ≤ 0xF3 then utf8Go 3 0x80 0xBF rest
    else if b = 0xF4 then utf8Go 3 0x80 0x8F rest
    else false
  | _ + 1, _, _, [] => false
  | n + 1, lo, hi, b :: rest =>
    if lo ≤ b && b ≤ hi then utf8Go n 0x80 0xBF rest else false

def validUtf8 (l : List Nat) : Bool := utf8Go 0 0 0 l

/-- Decimal digits to a number; `none` when empty or any byte is not an
ASCII digit. -/
def decOfDigits (l : List Nat) : Option Nat :=
  if l.isEmpty then none
  else
    l.foldl
      (fun acc b =>
        match acc with
        | none => none
        | some v => if 0x30 ≤ b && b ≤ 0x39 then some (v * 10 + (b - 0x30)) else none)
      (some 0)

/-- `str::parse::<usize>`: an optional leading `+`, then decimal digits,
rejecting values outside the 64-bit range. -/
def parseUsize (l : List Nat) : Option Nat :=
  match decOfDigits (match l with | 0x2B :: rest => rest | _ => l) with
  | some v => if v < 2 ^ 64 then some v else none
  | none => none

/-- `shotcut_content` (parser lines 246-253): the `NUL "shortcuts" NUL`
header. -/
def shotcut_content (i : List Nat) : PResult Unit :=
  (tagB [0] i).bind fun i _ =>
  (tagB (strBytes ("shortcuts")) i).bind fun i _ =>
  (tagB [0] i).bind fun i _ =>
  .ok i ()

/-- `get_order` (parser lines 85-93): NUL, digits up to NUL, NUL; the
digit bytes go through `from_utf8(..).unwrap()` and
`parse::<usize>().unwrap()`, each panicking on failure. -/
def get_order (i : List Nat) : PResult Nat :=
  (tagB [0] i).bind fun i _ =>
  (takeTillByte 0 i).bind fun i order_bytes =>
  (tagB [0] i).bind fun i _ =>
  if validUtf8 order_bytes then
    match parseUsize order_bytes with
    | some n => .ok i n
    | none => .panicked
  else .panicked

/-- `stx_4_line_parser` (parser lines 161-183): STX, key, NUL, then four
raw bytes read as a little-endian 32-bit value. -/
def stx4Line (key : List Nat) (i : List Nat) : PResult Nat :=
  (tagB [2] i).bind fun i _ =>
  (tagB key i).bind fun i _ =>
  (tagB [0] i).bind fun i _ =>
  (takeN 4 i).bind fun i b =>
  .ok i (b.getD 0 0 + 256 * b.getD 1 0 + 65536 * b.getD 2 0 + 16777216 * b.getD 3 0)

/-- `stx_single_line_parser` (parser lines 185-206): STX, key, NUL, SOH,
then three raw bytes placed as the *upper* three little-endian bytes:
`u32::from_le_bytes([0x00, b0, b1, b2])`. -/
def stxSingleLine (key : List Nat) (i : List Nat) : PResult Nat :=
  (tagB [2] i).bind fun i _ =>
  (tagB key i).bind fun i _ =>
  (tagB [0] i).bind fun i _ =>
  (tagB [1] i).bind fun i _ =>
  (takeN 3 i).bind fun i b =>
  .ok i (256 * b.getD 0 0 + 65536 * b.getD 1 0 + 16777216 * b.getD 2 0)

/-- `stx_line_parser` (parser lines 156-159): the short form is tried
first, then the long form. -/
def stxLine (key : List Nat) (i : List Nat) : PResult Nat :=
  altP (stxSingleLine key) (stx4Line key) i

/-- `soh_line_parser` (parser lines 232-244): SOH, key, NUL, value bytes
up to NUL, NUL; the value goes through `from_utf8(..).unwrap()`,
panicking on invalid UTF-8. -/
def sohLine (key : List Nat) (i : List Nat) : PResult (List Nat) :=
  (tagB [1] i).bind fun i _ =>
  (tagB key i).bind fun i _ =>
  (tagB [0] i).bind fun i _ =>
  (takeTillByte 0 i).bind fun i v =>
  (tagB [0] i).bind fun i _ =>
  if validUtf8 v then .ok i v else .panicked

def get_app_id (i : List Nat) : PResult Nat := stxLine (strBytes ("appid")) i

def get_is_hidden (i : List Nat) : PResult Bool :=
  (stxLine (strBytes ("IsHidden")) i).bind fun i v => .ok i (v ≠ 0)

def get_allow_desktop_config (i : List Nat) : PResult Bool :=
  (stxLine (strBytes ("AllowDesktopConfig")) i).bind fun i v => .ok i (v ≠ 0)

def get_allow_overlay (i : List Nat) : PResult Bool :=
  (stxLine (strBytes ("AllowOverlay")) i).bind fun i v => .ok i (v ≠ 0)

def get_open_vr (i : List Nat) : PResult Nat := stxLine (strBytes ("openvr")) i

def get_dev_kit (i : List Nat) : PResult Nat := stxLine (strBytes ("Devkit")) i

def get_last_time_played (i : List Nat) : PResult Nat :=
  stxLine (strBytes ("LastPlayTime")) i

def get_devkit_game_id (i : List Nat) : PResult (List Nat) :=
  sohLine (strBytes ("DevkitGameID")) i

def get_app_name (i : List Nat) : PResult (List Nat) := sohLine (strBytes ("AppName")) i

def get_exe (i : List Nat) : PResult (List Nat) := sohLine (strBytes ("Exe")) i

def get_start_dir (i : List Nat) : PResult (List Nat) := sohLine (strBytes ("StartDir")) i

def get_icon (i : List Nat) : PResult (List Nat) := sohLine (strBytes ("icon")) i

def get_shortcut_path (i : List Nat) : PResult (List Nat) :=
  sohLine (strBytes ("ShortcutPath")) i

def get_launch_options (i : List Nat) : PResult (List Nat) :=
  sohLine (strBytes ("LaunchOptions")) i

/-- `take_tag` (parser lines 143-154): SOH, index bytes up to NUL
(discarded without inspection), NUL, tag text up to NUL, NUL; the text
goes through `from_utf8(..).unwrap()`. -/
def take_tag (i : List Nat) : PResult (List Nat) :=
  (tagB [1] i).bind fun i _ =>
  (takeTillByte 0 i).bind fun i _ =>
  (tagB [0] i).bind fun i _ =>
  (takeTillByte 0 i).bind fun i name =>
  (tagB [0] i).bind fun i _ =>
  if validUtf8 name then .ok i name else .panicked

/-- `get_tags` (parser lines 127-141): NUL "tags" NUL, everything up to
the first BACKSPACE, BACKSPACE; then `many0(take_tag)` over the taken
bytes (its leftover is discarded, its error propagates). -/
def get_tags (i : List Nat) : PResult (List (List Nat)) :=
  (tagB [0] i).bind fun i _ =>
  (tagB (strBytes ("tags")) i).bind fun i _ =>
  (tagB [0] i).bind fun i _ =>
  (takeTillByte 8 i).bind fun i tags_bytes =>
  (tagB [8] i).bind fun i _ =>
  match many0 take_tag tags_bytes with
  | .ok _ tags => .ok i tags
  | .err => .err
  | .panicked => .panicked

/-- `get_shortcut` (parser lines 43-83): the field lines are read in one
fixed order; no `DevkitOverrideAppID` line is read, and the record is
built without that field (taken as 0 in the embedding: the source's
struct literal omits it). -/
def get_shortcut (i : List Nat) : PResult Shortcut :=
  (get_order i).bind fun i order =>
  (get_app_id i).bind fun i app_id =>
  (get_app_name i).bind fun i app_name =>
  (get_exe i).bind fun i exe =>
  (get_start_dir i).bind fun i start_dir =>
  (get_icon i).bind fun i icon =>
  (get_shortcut_path i).bind fun i shortcut_path =>
  (get_launch_options i).bind fun i launch_options =>
  (get_is_hidden i).bind fun i is_hidden =>
  (get_allow_desktop_config i).bind fun i allow_desktop_config =>
  (get_allow_overlay i).bind fun i allow_overlay =>
  (get_open_vr i).bind fun i open_vr =>
  (get_dev_kit i).bind fun i dev_kit =>
  (get_devkit_game_id i).bind fun i dev_kit_game_id =>
  (get_last_time_played i).bind fun i last_play_time =>
  (get_tags i).bind fun i tags =>
  (tagB [8] i).bind fun i _ =>
  .ok i
    { order := order
      app_id := app_id
      app_name := app_name
      exe := exe
      start_dir := start_dir
      icon := icon
      shortcut_path := shortcut_path
      launch_options := launch_options
      is_hidden := is_hidden
      allow_desktop_config := allow_desktop_config
      allow_overlay := allow_overlay
      open_vr := open_vr
      dev_kit := dev_kit
      dev_kit_game_id := dev_kit_game_id
      dev_kit_overrite_app_id := 0
      last_play_time := last_play_time
      tags := tags }

/-- `parse_shortcuts_inner` (parser lines 33-41): header, `many0` record
blocks, one BACKSPACE. -/
def parse_shortcuts_inner (shortcuts_bytes : List Nat) : PResult (List Shortcut) :=
  (shotcut_content shortcuts_bytes).bind fun i _ =>
  (many0 get_shortcut i).bind fun i list =>
  (tagB [8] i).bind fun i _ =>
  .ok i list

/-- Observable outcome of `parse_shortcuts` (parser lines 26-31): the
remaining input is discarded, a nom error becomes `Err(String)`, and a
panic aborts.  The error message text is not modelled. -/
inductive ParseOutcome : Type where
  | ok : List Shortcut → ParseOutcome
  | error : ParseOutcome
  | panicked : ParseOutcome
deriving DecidableEq, Repr

def parse_shortcuts (shortcuts_bytes : List Nat) : ParseOutcome :=
  match parse_shortcuts_inner shortcuts_bytes with
  | .ok _ shortcuts => .ok shortcuts
  | .err => .error
  | .panicked => .panicked

/-! ## Concrete test fixtures

A hand-built record block that the decoder accepts: the field lines in
the exact order the parser reads them (no `DevkitOverrideAppID` line,
which the parser never reads), all numeric fields in long form, and one
tag.  Variations of it drive the concrete decoding facts below. -/

def header : List Nat := [0] ++ strBytes ("shortcuts") ++ [0]

def lnOrder : List Nat := [0] ++ strBytes ("0") ++ [0]

def lnAppid : List Nat := stx_to_bytes (strBytes ("appid")) 2

def lnAppName : List Nat := soh_to_bytes (strBytes ("AppName")) (strBytes ("Game"))

def lnExe : List Nat := soh_to_bytes (strBytes ("Exe")) (strBytes ("exe"))

def lnStartDir : List Nat := soh_to_bytes (strBytes ("StartDir")) (strBytes ("dir"))

def lnIcon : List Nat := soh_to_bytes (strBytes ("icon")) []

def lnShortcutPath : List Nat := soh_to_bytes (strBytes ("ShortcutPath")) []

def lnLaunchOptions : List Nat := soh_to_bytes (strBytes ("LaunchOptions")) []

def lnIsHidden : List Nat := stx_to_bytes (strBytes ("IsHidden")) 0

def lnADC : List Nat := stx_to_bytes (strBytes ("AllowDesktopConfig")) 0

def lnAO : List Nat := stx_to_bytes (strBytes ("AllowOverlay")) 0

/-- The `openvr` field line with an arbitrary encoded-value byte run. -/
def lnOpenvr (enc : List Nat) : List Nat := 2 :: (strBytes ("openvr") ++ [0] ++ enc)

def lnDevkit : List Nat := stx_to_bytes (strBytes ("Devkit")) 0

def lnDevkitGameID : List Nat := soh_to_bytes (strBytes ("DevkitGameID")) []

def lnLastPlayTime : List Nat := stx_to_bytes (strBytes ("LastPlayTime")) 0

def lnTags : List Nat :=
  [0] ++ strBytes ("tags") ++ [0] ++ tag_to_bytes 0 (strBytes ("Installed")) ++ [8]

/-- A well-formed one-record stream, parameterised by the byte run that
encodes the `openvr` value. -/
def canonicalStreamWithOpenvr (enc : List Nat) : List Nat :=
  header ++ lnOrder ++ lnAppid ++ lnAppName ++ lnExe ++ lnStartDir ++ lnIcon
  ++ lnShortcutPath ++ lnLaunchOptions ++ lnIsHidden ++ lnADC ++ lnAO
  ++ lnOpenvr enc ++ lnDevkit ++ lnDevkitGameID ++ lnLastPlayTime
  ++ lnTags ++ [8] ++ [8, 8]

/-- The canonical well-formed one-record stream (`openvr` = 2, long form). -/
def canonicalStream : List Nat := canonicalStreamWithOpenvr [2, 0, 0, 0]

/-- The record the canonical stream decodes to. -/
def rCan : Shortcut :=
  { order := 0
    app_id := 2
    app_name := strBytes ("Game")
    exe := strBytes ("exe")
    start_dir := strBytes ("dir")
    icon := []
    shortcut_path := []
    launch_options := []
    is_hidden := false
    allow_desktop_config := false
    allow_overlay := false
    open_vr := 2
    dev_kit := 0
    dev_kit_game_id := []
    dev_kit_overrite_app_id := 0
    last_play_time := 0
    tags := [strBytes ("Installed")] }

/-- The canonical stream with its `AppName` and `Exe` field lines
interchanged (a reordering of two field lines of a valid block). -/
def swappedStream : List Nat :=
  header ++ lnOrder ++ lnAppid ++ lnExe ++ lnAppName ++ lnStartDir ++ lnIcon
  ++ lnShortcutPath ++ lnLaunchOptions ++ lnIsHidden ++ lnADC ++ lnAO
  ++ lnOpenvr [2, 0, 0, 0] ++ lnDevkit ++ lnDevkitGameID ++ lnLastPlayTime
  ++ lnTags ++ [8] ++ [8, 8]

/-- The canonical stream with an additional field line under the
unrecognized key `Unknown` injected between two recognized lines. -/
def unknownKeyStream : List Nat :=
  header ++ lnOrder ++ lnAppid ++ lnAppName ++ lnExe ++ lnStartDir ++ lnIcon
  ++ lnShortcutPath ++ lnLaunchOptions
  ++ soh_to_bytes (strBytes ("Unknown")) (strBytes ("x"))
  ++ lnIsHidden ++ lnADC ++ lnAO
  ++ lnOpenvr [2, 0, 0, 0] ++ lnDevkit ++ lnDevkitGameID ++ lnLastPlayTime
  ++ lnTags ++ [8] ++ [8, 8]

/-- The canonical stream with the optional numeric key `openvr`'s field
line absent. -/
def missingOpenvrStream : List Nat :=
  header ++ lnOrder ++ lnAppid ++ lnAppName ++ lnExe ++ lnStartDir ++ lnIcon
  ++ lnShortcutPath ++ lnLaunchOptions ++ lnIsHidden ++ lnADC ++ lnAO
  ++ lnDevkit ++ lnDevkitGameID ++ lnLastPlayTime
  ++ lnTags ++ [8] ++ [8, 8]

/-- The canonical stream with the numeric key `IsHidden`'s field line
absent. -/
def missingIsHiddenStream : List Nat :=
  header ++ lnOrder ++ lnAppid ++ lnAppName ++ lnExe ++ lnStartDir ++ lnIcon
  ++ lnShortcutPath ++ lnLaunchOptions ++ lnADC ++ lnAO
  ++ lnOpenvr [2, 0, 0, 0] ++ lnDevkit ++ lnDevkitGameID ++ lnLastPlayTime
  ++ lnTags ++ [8] ++ [8, 8]

/-- A stream whose `AppName` value is the byte 0xFF: not valid UTF-8.
The decoder reaches `from_utf8(..).unwrap()` on it. -/
def badUtf8Stream : List Nat :=
  header ++ lnOrder ++ lnAppid ++ (1 :: (strBytes ("AppName") ++ [0] ++ [255] ++ [0]))

/-- The well-formed stream of an empty record list: header plus the two
closing BACKSPACE bytes. -/
def emptyStream : List Nat := header ++ [8, 8]

/-- A tags block holding the tag texts "a", "b", "c" (bytes 97, 98, 99)
whose three entries carry arbitrary index byte runs `d1`, `d2`, `d3`. -/
def tagsBlockABC (d1 d2 d3 rest : List Nat) : List Nat :=
  [0] ++ strBytes ("tags") ++ [0]
  ++ [1] ++ d1 ++ [0] ++ [97] ++ [0]
  ++ [1] ++ d2 ++ [0] ++ [98] ++ [0]
  ++ [1] ++ d3 ++ [0] ++ [99] ++ [0]
  ++ [8] ++ rest

/-! ## Theorems -/

set_option maxRecDepth 100000

/-- Claim C1 (code_bug evidence): encoding the single well-formed record
`rCan` (NUL-free texts, default numeric fields) and decoding the result
does not give back `[rCan]`: the decode fails outright, because the
encoder emits a `DevkitOverrideAppID` field line that the decoder never
reads.  The claimed round-trip `decode (encode R) = R` therefore fails
for this `R`. -/
theorem c1_round_trip_fails :
    parse_shortcuts (shortcuts_to_bytes [rCan]) = .error
      ∧ ParseOutcome.error ≠ ParseOutcome.ok [rCan] := by
  decide

/-- Claim C3 (counterexample): the decoder does not accept field lines in
arbitrary order.  `canonicalStream` is a valid record block (it decodes
to `[rCan]`), and `swappedStream` is the same block with only its
`AppName` and `Exe` field lines interchanged, yet decoding it fails. -/
theorem c3_counterexample :
    parse_shortcuts canonicalStream = .ok [rCan]
      ∧ parse_shortcuts swappedStream = .error := by
  decide

/-- Claim C3 (amended): the decoder reads the field lines of a block in
one fixed order (appid, AppName, Exe, StartDir, icon, ShortcutPath,
LaunchOptions, IsHidden, AllowDesktopConfig, AllowOverlay, openvr,
Devkit, DevkitGameID, LastPlayTime) with no key-based collection: a
block in exactly that order decodes, and a block with an additional
unrecognized key (`Unknown`) injected fails to decode instead of being
silently ignored. -/
theorem c3_amended :
    parse_shortcuts canonicalStream = .ok [rCan]
      ∧ parse_shortcuts unknownKeyStream = .error := by
  decide

/-- Claim C4 (counterexample): removing the optional numeric key
`openvr`'s field line from a valid record block makes decoding fail;
the decoder does not default a missing numeric field to 0. -/
theorem c4_counterexample :
    parse_shortcuts missingOpenvrStream = .error := by
  decide

/-- Claim C4 (amended): every recognized field line is required: the
full block decodes, while the same block with its `IsHidden` line
absent fails to decode; no missing-key defaulting takes place. -/
theorem c4_amended :
    parse_shortcuts missingIsHiddenStream = .error
      ∧ parse_shortcuts canonicalStream ≠ .error := by
  decide

/-- Claim C5 (code_bug evidence): a field whose bytes are not valid
UTF-8 does not produce an error value.  On `badUtf8Stream` (its
`AppName` value is the single byte 0xFF) the decoder reaches
`from_utf8(..).unwrap()` and panics: the claim that decode always
returns either the record list or a single error value is violated by
the code. -/
theorem c5_panics_on_bad_utf8 :
    parse_shortcuts badUtf8Stream = .panicked := by
  decide

/-- Claim C6 (counterexample): `canonicalStream` is a valid original
byte stream using only the long-form numeric encoding for every numeric
field, and it decodes to `[rCan]`; but re-encoding does not reproduce
it: the encoder writes `AllowDesktopConfig`/`AllowOverlay` in the
packed short form and inserts a `DevkitOverrideAppID` line that was not
(and could not be) present in the decodable input. -/
theorem c6_counterexample :
    parse_shortcuts canonicalStream = .ok [rCan]
      ∧ shortcuts_to_bytes [rCan] ≠ canonicalStream := by
  decide

/-- Claim C6 (amended): byte-identical re-encoding holds for the empty
record stream — the header followed by the two closing BACKSPACE bytes
decodes to the empty list, and encoding the empty list reproduces those
bytes exactly — and it does not extend to nonempty streams: a second
valid long-form-only one-record stream (`openvr` = 3, distinct from the
counterexample's) also decodes but re-encodes to different bytes. -/
theorem c6_amended :
    parse_shortcuts emptyStream = .ok []
      ∧ shortcuts_to_bytes [] = emptyStream
      ∧ parse_shortcuts (canonicalStreamWithOpenvr [3, 0, 0, 0])
          = .ok [{ rCan with open_vr := 3 }]
      ∧ shortcuts_to_bytes [{ rCan with open_vr := 3 }]
          ≠ canonicalStreamWithOpenvr [3, 0, 0, 0] := by
  decide

/-- Claim C8: `calculate_app_id` concatenates `exe` directly followed by
`app_name` (no separator), takes the CRC-32 checksum of the result, and
forces the most-significant bit to 1; hence bit 31 of every result is
set.  Determinism is definitional (a pure function of its arguments).
The concrete value checks pin the embedding of the checksum to CRC-32
(ISO-HDLC) and exhibit argument-order sensitivity. -/
theorem c8_app_id :
    (∀ exe app_name : List Nat,
      calculate_app_id exe app_name = crc32 (exe ++ app_name) ||| 0x80000000
        ∧ Nat.testBit (calculate_app_id exe app_name) 31 = true)
      ∧ calculate_app_id (strBytes ("X")) (strBytes ("Y")) = 2701929715
      ∧ calculate_app_id (strBytes ("X")) (strBytes ("Y"))
          ≠ calculate_app_id (strBytes ("Y")) (strBytes ("X")) := by
  refine ⟨fun exe app_name => ⟨rfl, ?_⟩, by decide, by decide⟩
  simp [calculate_app_id, Nat.testBit_or]
  exact Or.inr (by decide)

/-- Claim C9 (counterexample): the conclusion "the i-th record of
`decode (encode R)` has order i" fails because decoding the encoder's
output fails for nonempty sequences: with a record whose own `order`
field is 5, `decode (encode R)` is an error, not a record list. -/
theorem c9_counterexample :
    parse_shortcuts (shortcuts_to_bytes [{ rCan with order := 5 }]) = .error := by
  decide

/-- Claim C9 (amended): the encoder writes the decimal digits of each
record's position as the order marker of its block and ignores the
record's own `order` field entirely (the emitted block is the same for
every value of that field, proved for all records, positions and field
values); decoding the encoder's output succeeds for the empty sequence,
where the decoded-order conclusion holds vacuously, while the
counterexample shows it failing at a nonempty sequence. -/
theorem c9_amended :
    (∀ (idx k : Nat) (s : Shortcut),
      shortcut_to_bytes idx { s with order := k }
        = [0] ++ decDigits idx ++ [0] ++ shortcut_field_bytes s)
      ∧ parse_shortcuts (shortcuts_to_bytes []) = .ok [] := by
  exact ⟨fun idx k s => rfl, by decide⟩

/-- Claim C10: converting a borrowing record to the owning form and
borrowing it back reproduces the record field-for-field, including the
tag sequence in order. -/
theorem c10_to_owned_borrow (s : Shortcut) : (Shortcut.to_owned s).borrow = s := by
  cases s
  simp [Shortcut.to_owned, ShortcutOwned.borrow]

/-! ### Combinator-level lemmas for the universal statements -/

/-- Matching a one-byte tag at a matching head consumes that byte. -/
theorem tagB_cons (a : Nat) (l : List Nat) : tagB [a] (a :: l) = .ok l () := by
  simp [tagB, List.isPrefixOf]

/-- Matching a literal tag at the front of `t ++ rest` consumes `t`. -/
theorem tagB_self (t rest : List Nat) : tagB t (t ++ rest) = .ok rest () := by
  have hp : t.isPrefixOf (t ++ rest) = true := by
    induction t with
    | nil => simp [List.isPrefixOf]
    | cons a as ih => simp [List.isPrefixOf, ih]
  simp [tagB, hp, List.drop_left]

/-- The SOH tag fails on a NUL head byte. -/
theorem tagB_one_zero (l : List Nat) : tagB [1] (0 :: l) = .err := by
  simp [tagB, List.isPrefixOf]

theorem takeN_three (b0 b1 b2 : Nat) (rest : List Nat) :
    takeN 3 (b0 :: b1 :: b2 :: rest) = .ok rest [b0, b1, b2] := by
  have h : 3 ≤ (b0 :: b1 :: b2 :: rest).length := by simp
  rw [takeN, if_pos h]
  rfl

theorem takeN_four (b0 b1 b2 b3 : Nat) (rest : List Nat) :
    takeN 4 (b0 :: b1 :: b2 :: b3 :: rest) = .ok rest [b0, b1, b2, b3] := by
  have h : 4 ≤ (b0 :: b1 :: b2 :: b3 :: rest).length := by simp
  rw [takeN, if_pos h]
  rfl

/-- The short numeric form `STX key NUL SOH b0 b1 b2` decodes to the
value with those three bytes as its upper little-endian bytes. -/
theorem stxLine_short (key : List Nat) (b0 b1 b2 : Nat) (rest : List Nat) :
    stxLine key (2 :: (key ++ [0] ++ (1 :: b0 :: b1 :: b2 :: rest)))
      = .ok rest (256 * b0 + 65536 * b1 + 16777216 * b2) := by
  simp [stxLine, altP, stxSingleLine, PResult.bind, tagB_cons, tagB_self,
    takeN_three, List.append_assoc]

/-- The long numeric form `STX key NUL 00 b0 b1 b2` (a little-endian
value with low byte zero) decodes to the same value as the short form
of `b0 b1 b2`: the short-form alternative fails on the 0x00 where it
expects SOH, and the long-form parser reads the four bytes. -/
theorem stxLine_long_zero (key : List Nat) (b0 b1 b2 : Nat) (rest : List Nat) :
    stxLine key (2 :: (key ++ [0] ++ (0 :: b0 :: b1 :: b2 :: rest)))
      = .ok rest (256 * b0 + 65536 * b1 + 16777216 * b2) := by
  simp [stxLine, altP, stxSingleLine, stx4Line, PResult.bind, tagB_cons, tagB_self,
    tagB_one_zero, takeN_four, List.append_assoc]

theorem takeWhile_bne_split (v : Nat) (l r : List Nat) (h : ∀ b ∈ l, b ≠ v) :
    (l ++ v :: r).takeWhile (fun b => b != v) = l := by
  induction l with
  | nil => simp [List.takeWhile_cons]
  | cons a as ih =>
    have ha : (a != v) = true := by
      simpa using h a (List.mem_cons_self a as)
    simp [List.takeWhile_cons, ha]
    exact ih (fun b hb => h b (List.mem_cons_of_mem a hb))

theorem dropWhile_bne_split (v : Nat) (l r : List Nat) (h : ∀ b ∈ l, b ≠ v) :
    (l ++ v :: r).dropWhile (fun b => b != v) = v :: r := by
  induction l with
  | nil => simp [List.dropWhile_cons]
  | cons a as ih =>
    have ha : (a != v) = true := by
      simpa using h a (List.mem_cons_self a as)
    simp [List.dropWhile_cons, ha]
    exact ih (fun b hb => h b (List.mem_cons_of_mem a hb))

/-- `take_till` splits the input at the first occurrence of `v`. -/
theorem takeTillByte_split (v : Nat) (l r : List Nat) (h : ∀ b ∈ l, b ≠ v) :
    takeTillByte v (l ++ v :: r) = .ok (v :: r) l := by
  simp [takeTillByte, takeWhile_bne_split v l r h, dropWhile_bne_split v l r h]

/-- One tag entry: the index byte run `d` is consumed and discarded
without inspection; the entry yields only the tag text. -/
theorem take_tag_entry (d name rest : List Nat) (hd : ∀ b ∈ d, b ≠ 0)
    (hn : ∀ b ∈ name, b ≠ 0) (hu : validUtf8 name = true) :
    take_tag (1 :: (d ++ 0 :: (name ++ 0 :: rest))) = .ok rest name := by
  have h1 : takeTillByte 0 (d ++ 0 :: (name ++ 0 :: rest)) = .ok (0 :: (name ++ 0 :: rest)) d :=
    takeTillByte_split 0 d _ hd
  have h2 : takeTillByte 0 (name ++ 0 :: rest) = .ok (0 :: rest) name :=
    takeTillByte_split 0 name rest hn
  simp [take_tag, PResult.bind, tagB_cons, h1, h2, hu]

/-- `many0Go` does not depend on the fuel once it exceeds the input
length (the loop body consumes on every iteration or stops). -/
theorem many0Go_fuel {α : Type} (p : List Nat → PResult α) :
    ∀ f1 f2 i, i.length < f1 → i.length < f2 → many0Go p f1 i = many0Go p f2 i := by
  intro f1
  induction f1 with
  | zero => intro f2 i h1 h2; omega
  | succ f ih =>
    intro f2 i h1 h2
    cases f2 with
    | zero => omega
    | succ g =>
      simp only [many0Go]
      cases hp : p i with
      | err => rfl
      | panicked => rfl
      | ok rest a =>
        by_cases hlt : rest.length < i.length
        · simp only [if_pos hlt]
          rw [ih g rest (by omega) (by omega)]
        · simp only [if_neg hlt]

theorem many0_stop {α : Type} (p : List Nat → PResult α) (i : List Nat) (h : p i = .err) :
    many0 p i = .ok i [] := by
  simp [many0, many0Go, h]

theorem many0_step {α : Type} (p : List Nat → PResult α) (i rest : List Nat) (a : α)
    (h : p i = .ok rest a) (hlt : rest.length < i.length) :
    many0 p i
      = match many0 p rest with
        | PResult.ok r l => PResult.ok r (a :: l)
        | PResult.err => PResult.err
        | PResult.panicked => PResult.panicked := by
  rw [many0]
  simp only [many0Go, h, if_pos hlt]
  rw [many0Go_fuel p i.length (rest.length + 1) rest (by omega) (by omega)]
  rfl

/-- The tags block with texts "a", "b", "c" decodes to exactly those
texts in encounter order, whatever the index byte runs `d1 d2 d3` are
(any NUL-free, BACKSPACE-free runs; digits not required). -/
theorem get_tags_abc (d1 d2 d3 rest : List Nat)
    (hd1 : ∀ b ∈ d1, b ≠ 0 ∧ b ≠ 8) (hd2 : ∀ b ∈ d2, b ≠ 0 ∧ b ≠ 8)
    (hd3 : ∀ b ∈ d3, b ≠ 0 ∧ b ≠ 8) :
    get_tags (tagsBlockABC d1 d2 d3 rest) = .ok rest [[97], [98], [99]] := by
  have e3 : take_tag (1 :: (d3 ++ [0, 99, 0])) = .ok [] [99] := by
    simpa using take_tag_entry d3 [99] [] (fun b hb => (hd3 b hb).1) (by decide) (by decide)
  have e2 : take_tag (1 :: (d2 ++ 0 :: 98 :: 0 :: (1 :: (d3 ++ [0, 99, 0]))))
      = .ok (1 :: (d3 ++ [0, 99, 0])) [98] := by
    simpa using take_tag_entry d2 [98] (1 :: (d3 ++ [0, 99, 0]))
      (fun b hb => (hd2 b hb).1) (by decide) (by decide)
  have e1 : take_tag
      (1 :: (d1 ++ 0 :: 97 :: 0 :: (1 :: (d2 ++ 0 :: 98 :: 0 :: (1 :: (d3 ++ [0, 99, 0]))))))
      = .ok (1 :: (d2 ++ 0 :: 98 :: 0 :: (1 :: (d3 ++ [0, 99, 0])))) [97] := by
    simpa using take_tag_entry d1 [97]
      (1 :: (d2 ++ 0 :: 98 :: 0 :: (1 :: (d3 ++ [0, 99, 0]))))
      (fun b hb => (hd1 b hb).1) (by decide) (by decide)
  have m3 : many0 take_tag (1 :: (d3 ++ [0, 99, 0])) = .ok [] [[99]] := by
    rw [many0_step take_tag _ [] [99] e3
      (by simp only [List.length_cons, List.length_append, List.length_nil]; omega)]
    rw [many0_stop take_tag [] rfl]
  have m2 : many0 take_tag (1 :: (d2 ++ 0 :: 98 :: 0 :: (1 :: (d3 ++ [0, 99, 0]))))
      = .ok [] [[98], [99]] := by
    rw [many0_step take_tag _ _ [98] e2
      (by simp only [List.length_cons, List.length_append, List.length_nil]; omega)]
    rw [m3]
  have m1 : many0 take_tag
      (1 :: (d1 ++ 0 :: 97 :: 0 :: (1 :: (d2 ++ 0 :: 98 :: 0 :: (1 :: (d3 ++ [0, 99, 0]))))))
      = .ok [] [[97], [98], [99]] := by
    rw [many0_step take_tag _ _ [97] e1
      (by simp only [List.length_cons, List.length_append, List.length_nil]; omega)]
    rw [m2]
  have h8 : ∀ b ∈ (1 :: (d1 ++ 0 :: 97 :: 0 :: (1 :: (d2 ++ 0 :: 98 :: 0 ::
      (1 :: (d3 ++ [0, 99, 0])))))), b ≠ 8 := by
    intro b hb h8b
    subst h8b
    simp at hb
    rcases hb with h | h | h
    · exact (hd1 8 h).2 rfl
    · exact (hd2 8 h).2 rfl
    · exact (hd3 8 h).2 rfl
  have hsplit := takeTillByte_split 8 _ rest h8
  simp only [List.append_assoc, List.cons_append, List.singleton_append,
    List.nil_append] at hsplit
  simp [get_tags, tagsBlockABC, PResult.bind, tagB_cons, tagB_self,
    List.append_assoc, hsplit, m1]

/-! ### Claims C2 and C7 -/

/-- Claim C2 (counterexample): the two encodings of the same value do
not decode to equal field values.  With `openvr` encoded in long form
as the 4 little-endian bytes of the value 1 the stream decodes, but to
`open_vr = 0` (the short-form alternative is tried first and consumes
the 0x01 byte as its SOH marker); with the claim's short form
`SOH NUL 01 00 00` of the value 1 the stream fails to decode
altogether. -/
theorem c2_counterexample :
    parse_shortcuts (canonicalStreamWithOpenvr [1, 0, 0, 0]) = .ok [{ rCan with open_vr := 0 }]
      ∧ parse_shortcuts (canonicalStreamWithOpenvr [1, 0, 1, 0, 0]) = .error := by
  decide

/-- Claim C2 (amended): for every numeric key the decoder accepts the
short form `STX key NUL SOH b0 b1 b2` and the long form
`STX key NUL 00 b0 b1 b2` (a 4-byte little-endian value whose low byte
is zero); both decode to the value with `b0 b1 b2` as its upper three
little-endian bytes (the short form is tried first), and two streams
identical except for which of these two forms encodes the `openvr`
field decode to equal Records. -/
theorem c2_amended :
    (∀ (key : List Nat) (b0 b1 b2 : Nat) (rest : List Nat),
      stxLine key (2 :: (key ++ [0] ++ (1 :: b0 :: b1 :: b2 :: rest)))
        = .ok rest (256 * b0 + 65536 * b1 + 16777216 * b2)
      ∧ stxLine key (2 :: (key ++ [0] ++ (0 :: b0 :: b1 :: b2 :: rest)))
        = .ok rest (256 * b0 + 65536 * b1 + 16777216 * b2))
    ∧ parse_shortcuts (canonicalStreamWithOpenvr [1, 5, 6, 7])
        = parse_shortcuts (canonicalStreamWithOpenvr [0, 5, 6, 7])
    ∧ parse_shortcuts (canonicalStreamWithOpenvr [1, 5, 6, 7])
        = .ok [{ rCan with open_vr := 117835008 }] :=
  ⟨fun key b0 b1 b2 rest => ⟨stxLine_short key b0 b1 b2 rest, stxLine_long_zero key b0 b1 b2 rest⟩,
    by decide, by decide⟩

/-- Claim C7 (counterexample): a record with tag list ["a","b","c"]
(bytes [97],[98],[99]) does not round-trip through encode then decode:
decoding the encoder's output fails outright (the encoder emits a
`DevkitOverrideAppID` field line the decoder does not read), so no
record with that tag list is produced. -/
theorem c7_counterexample :
    parse_shortcuts (shortcuts_to_bytes [{ rCan with tags := [[97], [98], [99]] }])
      = .error := by
  decide

/-- Claim C7 (amended): at the tags-block level the decoder discards the
index byte runs of the entries and returns the tag texts in encounter
order — for arbitrary NUL-free, BACKSPACE-free index runs the block
with texts "a","b","c" decodes to exactly those texts in that order —
and the encoder writes each tag's position as its ASCII index (digits
48, 49, 50 for positions 0, 1, 2), so the encoded tags block decodes
back to ["a","b","c"] in order.  (The full-record round-trip fails for
the unrelated `DevkitOverrideAppID` reason of the counterexample.) -/
theorem c7_amended :
    (∀ d1 d2 d3 rest : List Nat,
      (∀ b ∈ d1, b ≠ 0 ∧ b ≠ 8) → (∀ b ∈ d2, b ≠ 0 ∧ b ≠ 8) → (∀ b ∈ d3, b ≠ 0 ∧ b ≠ 8) →
      get_tags (tagsBlockABC d1 d2 d3 rest) = .ok rest [[97], [98], [99]])
    ∧ tags_to_bytes [[97], [98], [99]]
        = [1, 48, 0, 97, 0, 1, 49, 0, 98, 0, 1, 50, 0, 99, 0]
    ∧ get_tags ([0] ++ strBytes ("tags") ++ [0] ++ tags_to_bytes [[97], [98], [99]] ++ [8])
        = .ok [] [[97], [98], [99]] :=
  ⟨fun d1 d2 d3 rest h1 h2 h3 => get_tags_abc d1 d2 d3 rest h1 h2 h3, by decide, by decide⟩

/-- Claim C7 (witness): the amended statement applied at the concrete
index byte runs "9", "55", "x" — none of them the positional digits —
still yields the tags "a","b","c" in order. -/
theorem c7_witness :
    (∀ b ∈ [57], b ≠ 0 ∧ b ≠ 8) ∧ (∀ b ∈ [53, 53], b ≠ 0 ∧ b ≠ 8)
      ∧ (∀ b ∈ [120], b ≠ 0 ∧ b ≠ 8)
      ∧ get_tags (tagsBlockABC [57] [53, 53] [120] []) = .ok [] [[97], [98], [99]] :=
  ⟨by decide, by decide, by decide,
    c7_amended.1 [57] [53, 53] [120] [] (by decide) (by decide) (by decide)⟩

end SteamShortcuts
